import Mathlib

/-!
Verification of the gtr-mcp repository: a shallow embedding of the two
Gateway-to-Research HTTP clients (`app/client.py` and
`app/gtr_client/GtrClient.py`) and of the tool adapter (`app/mcp_server.py`).

Network I/O is abstracted: each operation that performs an HTTP exchange
takes the outcome of that exchange (or an oracle from the request it builds
to an outcome) as an explicit argument. Everything else is translated
directly from the Python source.
-/

/-- JSON values, the interchange shape of the upstream API. Objects keep
their fields as an ordered association list; lookups take the first
occurrence of a key, matching a parsed JSON object. -/
inductive Json where
  | null : Json
  | bool (b : Bool) : Json
  | num (n : Int) : Json
  | str (s : String) : Json
  | arr (elems : List Json) : Json
  | obj (fields : List (String × Json)) : Json
deriving Repr

/-- Python exception kinds that the embedded code can raise. -/
inductive PyError where
  /-- `d[k]` with key `k` absent. -/
  | keyError : PyError
  /-- an operation applied to a value of the wrong type. -/
  | typeError : PyError
  /-- an attribute or method access on a value that lacks it. -/
  | attributeError : PyError
  /-- a pydantic model rejected its input. -/
  | validationError : PyError
  /-- `raise_for_status` on a non-2xx response; carries the status code. -/
  | httpStatusError (code : Nat) : PyError
  /-- transport failure: timeout, connection failure. -/
  | transportError : PyError
  /-- the response body is not valid JSON. -/
  | jsonDecodeError : PyError
deriving Repr, DecidableEq

/-- Sequencing of fallible steps (Python exception propagation): an error
stops the computation, a success feeds the next step. -/
def exBind : Except ε α → (α → Except ε β) → Except ε β
  | .error e, _ => .error e
  | .ok a, f => f a

/-- Python truthiness of a JSON value: `None`, `False`, `0`, the empty
string, the empty list and the empty dict are falsy. -/
def pyTruthy : Json → Bool
  | .null => false
  | .bool b => b
  | .num n => n != 0
  | .str s => s != ""
  | .arr l => !l.isEmpty
  | .obj fs => !fs.isEmpty

/-- Truthiness of `d.get(k)`: a missing key gives `None`, which is falsy. -/
def pyTruthyOpt : Option Json → Bool
  | none => false
  | some j => pyTruthy j

/-- Field lookup on a JSON object; `none` when the value is not an object
or the key is absent (total helper used to state properties). -/
def jget : Json → String → Option Json
  | .obj fs, k => fs.lookup k
  | _, _ => none

/-- Python `d[k]`: `KeyError` when absent, `TypeError` when `d` is not a
dict (string subscripts on other values fail). -/
def pyIndex : Json → String → Except PyError Json
  | .obj fs, k =>
    match fs.lookup k with
    | some v => .ok v
    | none => .error .keyError
  | _, _ => .error .typeError

/-- Python `d.get(k)` (equally `d.get(k, None)`): `AttributeError` when `d`
is not a dict. -/
def pyGet : Json → String → Except PyError (Option Json)
  | .obj fs, k => .ok (fs.lookup k)
  | _, _ => .error .attributeError

/-- Python iteration `for p in v`: a list yields its elements, a dict its
keys (as strings), a string its characters; other values are not iterable. -/
def pyIter : Json → Except PyError (List Json)
  | .arr l => .ok l
  | .obj fs => .ok (fs.map fun kv => Json.str kv.1)
  | .str s => .ok (s.data.map fun c => Json.str (String.singleton c))
  | _ => .error .typeError

/-- The `Project` pydantic model of `app/schemas.py`: `title` and
`abstractText` required strings, the other two optional strings. -/
structure Project where
  title : String
  abstractText : String
  techAbstractText : Option String
  potentialImpact : Option String
deriving Repr, DecidableEq

/-- Pydantic validation of a required `str` field: only a JSON string is
accepted. -/
def asStrField : Json → Except PyError String
  | .str s => .ok s
  | _ => .error .validationError

/-- Pydantic validation of a `str | None` field fed from `d.get(k, None)`:
absent or JSON null becomes `none`, a string is kept, anything else is
rejected. -/
def asOptStrField : Option Json → Except PyError (Option String)
  | none => .ok none
  | some .null => .ok none
  | some (.str s) => .ok (some s)
  | some _ => .error .validationError

namespace MiniClient

/-- `app/client.py` line 16: the fixed User-Agent string. -/
def USER_AGENT : String := "gtr-mcp-server/0.0.1"

/-- `app/client.py`: the API base URL. -/
def GTR_API_BASE : String := "https://gtr.ukri.org/gtr/api/"

/-- `app/client.py`: the projects endpoint, `f"{GTR_API_BASE}/projects"`
(note the double slash: the base already ends in a slash). -/
def GTR_API_PROJECTS : String := GTR_API_BASE ++ "/projects"

/-- The single-quote character, written by code so the source file carries
no quote literals. -/
def sqc : Char := Char.ofNat 39

/-- The double-quote character. -/
def dqc : Char := Char.ofNat 34

/-- One hexadecimal digit. -/
def hexDigit (n : Nat) : Char :=
  if n < 10 then Char.ofNat (48 + n) else Char.ofNat (87 + n)

/-- Two-digit lowercase hex of a byte. -/
def hex2 (n : Nat) : String :=
  String.mk [hexDigit (n / 16 % 16), hexDigit (n % 16)]

/-- How Python `repr` writes one character of a string delimited by quote
character `q`: backslash and the delimiter are backslash-escaped, tab,
newline and carriage return use their short escapes, other control bytes
use `\xNN`, and printable characters stand for themselves. -/
def pyReprChar (q c : Char) : String :=
  if c = '\\' then String.mk ['\\', '\\']
  else if c = q then String.mk ['\\', q]
  else if c = Char.ofNat 9 then String.mk ['\\', 't']
  else if c = Char.ofNat 10 then String.mk ['\\', 'n']
  else if c = Char.ofNat 13 then String.mk ['\\', 'r']
  else if c.toNat < 32 || c.toNat = 127 then String.mk ['\\', 'x'] ++ hex2 c.toNat
  else String.singleton c

/-- Concatenate the repr of each character. -/
def pyReprBody (q : Char) : List Char → String
  | [] => ""
  | c :: cs => pyReprChar q c ++ pyReprBody q cs

/-- Python `repr` of a string (the expansion of the f-string debug
specifier `{q=}`): the text wrapped in single quotes, or in double quotes
when it contains a single quote but no double quote, with escapes. -/
def pyReprStr (s : String) : String :=
  let q := if s.data.contains sqc && !(s.data.contains dqc) then dqc else sqc
  String.singleton q ++ pyReprBody q s.data ++ String.singleton q

/-- An outbound HTTP GET request: URL, headers, timeout in seconds. -/
structure HttpRequest where
  url : String
  headers : List (String × String)
  timeout : Nat
deriving Repr, DecidableEq

/-- `app/client.py` lines 16-22: the request `GtrClient.get_projects`
builds for a query `q`. The URL comes from `f"{GTR_API_PROJECTS}/?{q=}"`,
whose debug specifier `{q=}` expands to the text `q=` followed by the
Python repr of `q`. -/
def request (q : String) : HttpRequest :=
  { url := GTR_API_PROJECTS ++ "/?q=" ++ pyReprStr q
    headers := [("User-Agent", USER_AGENT), ("Accept", "application/json")]
    timeout := 5 }

/-- `app/client.py` lines 41-45: the list-comprehension filter. An element
is kept when `p.get("title")` and `p.get("abstractText")` are both truthy. -/
def keepElem (p : Json) : Bool :=
  pyTruthyOpt (jget p "title") && pyTruthyOpt (jget p "abstractText")

/-- The filter as the Python code runs it: `.get` raises `AttributeError`
on a non-dict element. -/
def keepCheck (p : Json) : Except PyError Bool :=
  exBind (pyGet p "title") fun t =>
  exBind (pyGet p "abstractText") fun a =>
  .ok (pyTruthyOpt t && pyTruthyOpt a)

/-- `app/client.py` lines 36-41: construction of one `Project` from a
surviving element, with pydantic validation of each field. -/
def mkProject (p : Json) : Except PyError Project :=
  exBind (pyIndex p "title") fun tv =>
  exBind (asStrField tv) fun t =>
  exBind (pyIndex p "abstractText") fun av =>
  exBind (asStrField av) fun a =>
  exBind (pyGet p "techAbstractText") fun techv =>
  exBind (asOptStrField techv) fun tech =>
  exBind (pyGet p "potentialImpact") fun impv =>
  exBind (asOptStrField impv) fun imp =>
  .ok ⟨t, a, tech, imp⟩

/-- The list comprehension of `app/client.py` lines 35-45: per element, the
filter condition runs first; elements passing it are projected in order. -/
def parseElems : List Json → Except PyError (List Project)
  | [] => .ok []
  | p :: rest =>
    exBind (keepCheck p) fun c =>
    if c then
      exBind (mkProject p) fun r =>
      exBind (parseElems rest) fun rs =>
      .ok (r :: rs)
    else
      parseElems rest

/-- Order-preserving projection of a list of elements into records, used
to state what a successful `parseElems` run produces: `parseElems` on `l`
agrees with `mapRecords` on `l.filter keepElem`. -/
def mapRecords : List Json → Except PyError (List Project)
  | [] => .ok []
  | p :: rest =>
    exBind (mkProject p) fun r =>
    exBind (mapRecords rest) fun rs =>
    .ok (r :: rs)

/-- `app/client.py` lines 13-45, `GtrClient.get_projects`, with the HTTP
exchange abstracted as its outcome `httpResult` (an error models
`raise_for_status` on non-2xx, a transport failure or a JSON decode
failure; those exceptions propagate). The body is subscripted at
`"project"`, iterated, filtered and projected into `Project` records. -/
def get_projects (httpResult : Except PyError Json) : Except PyError (List Project) :=
  exBind httpResult fun body =>
  exBind (pyIndex body "project") fun pl =>
  exBind (pyIter pl) fun l =>
  parseElems l

end MiniClient

/-- A character that Python repr copies verbatim inside single quotes: not
a backslash, not a single quote, not a control byte. -/
def plainChar (c : Char) : Prop :=
  c ≠ '\\' ∧ c ≠ MiniClient.sqc ∧ 32 ≤ c.toNat ∧ c.toNat ≠ 127

instance (c : Char) : Decidable (plainChar c) := by
  unfold plainChar
  infer_instance

namespace McpServer

/-- `app/mcp_server.py` line 16: the adapter calls `.json()` on the value
returned by `GtrClient.get_projects`. That value is a Python list, and a
list has no `json` attribute, so the call raises `AttributeError`. -/
def listJsonCall (_ps : List Project) : Except PyError Json :=
  .error .attributeError

/-- `app/mcp_server.py` lines 8-16: the `get_projects` tool. It awaits
`GtrClient.get_projects(q)` (any exception propagating unchanged) and then
returns `response.json()`. -/
def get_projects (httpResult : Except PyError Json) : Except PyError Json :=
  match MiniClient.get_projects httpResult with
  | .error e => .error e
  | .ok ps => listJsonCall ps

end McpServer

namespace FullClient

/-- Errors of the full-featured client: `invalidArgument` embeds the
`ValueError`s its validation raises (carrying the message), the others the
`httpx` failures an exchange can produce. -/
inductive GtrError where
  | invalidArgument (msg : String) : GtrError
  | httpStatusError (code : Nat) : GtrError
  | transportError : GtrError
  | jsonDecodeError : GtrError
  | typeError : GtrError
deriving Repr, DecidableEq

/-- A value of the query-parameter dict built by the client: a string, an
integer, or a list of strings (the search-field codes). -/
inductive ParamVal where
  | s (v : String) : ParamVal
  | i (v : Int) : ParamVal
  | strList (v : List String) : ParamVal
deriving Repr, DecidableEq

/-- `app/gtr_client/GtrClient.py` line 14: the base URL. -/
def BASE_URL : String := "http://gtr.ukri.org/gtr/api"

/-- `ValueError` message for a page size outside [10,100]. -/
def pageSizeMsg : String := "page_size must be between 10 and 100"

/-- `ValueError` message for a sort order outside the enum. -/
def sortOrderMsg : String :=
  "sort_order must be " ++ MiniClient.pyReprStr "A" ++ " (ascending) or "
    ++ MiniClient.pyReprStr "D" ++ " (descending)"

/-- `app/gtr_client/GtrClient.py` lines 83-104: the query-parameter dict of
`search_projects`, in insertion order: `q`, `p`, `s` always; `f` appended
only when `search_fields` is truthy (a non-empty list); `sf` and `so`
appended only when `sort_field` is truthy (a non-empty string). -/
def build_params (query : String) (page page_size : Int)
    (search_fields : Option (List String)) (sort_field : Option String)
    (sort_order : String) : List (String × ParamVal) :=
  [("q", .s query), ("p", .i page), ("s", .i page_size)]
  ++ (match search_fields with
      | some fs => if fs = [] then [] else [("f", .strList fs)]
      | none => [])
  ++ (match sort_field with
      | some sf => if sf = "" then [] else [("sf", .s sf), ("so", .s sort_order)]
      | none => [])

/-- `app/gtr_client/GtrClient.py` lines 36-106, `GtrClient.search_projects`.
The HTTP exchange is abstracted as the oracle `fetch` from the built
parameter dict to the outcome of `client.get` + `raise_for_status` +
`.json()`. Validation of `page_size` and `sort_order` happens before the
oracle is consulted, so an invalid argument fails for every oracle. -/
def search_projects (query : String) (page page_size : Int)
    (search_fields : Option (List String)) (sort_field : Option String)
    (sort_order : String)
    (fetch : List (String × ParamVal) → Except GtrError Json) : Except GtrError Json :=
  if page_size < 10 || page_size > 100 then
    .error (.invalidArgument pageSizeMsg)
  else if !(sort_order = "A" || sort_order = "D") then
    .error (.invalidArgument sortOrderMsg)
  else
    fetch (build_params query page page_size search_fields sort_field sort_order)

/-- `app/gtr_client/GtrClient.py` lines 108-121, `GtrClient.get_project`:
a GET on `{BASE_URL}/projects/{project_id}` with no query parameters. -/
def get_project (project_id : String)
    (fetch : String → List (String × ParamVal) → Except GtrError Json) : Except GtrError Json :=
  fetch (BASE_URL ++ "/projects/" ++ project_id) []

/-- `app/gtr_client/GtrClient.py` lines 123-142, `GtrClient.get_person_projects`:
a GET on `{BASE_URL}/persons/{person_id}/projects` with parameters
`p` = page and `s` = page_size. No validation is performed. -/
def get_person_projects (person_id : String) (page page_size : Int)
    (fetch : String → List (String × ParamVal) → Except GtrError Json) : Except GtrError Json :=
  fetch (BASE_URL ++ "/persons/" ++ person_id ++ "/projects")
    [("p", .i page), ("s", .i page_size)]

/-- `app/gtr_client/GtrClient.py` lines 144-163, `GtrClient.get_organisation_projects`:
a GET on `{BASE_URL}/organisations/{organisation_id}/projects` with
parameters `p` = page and `s` = page_size. No validation is performed. -/
def get_organisation_projects (organisation_id : String) (page page_size : Int)
    (fetch : String → List (String × ParamVal) → Except GtrError Json) : Except GtrError Json :=
  fetch (BASE_URL ++ "/organisations/" ++ organisation_id ++ "/projects")
    [("p", .i page), ("s", .i page_size)]

/-- Python list slicing `l[:limit]` for the integer `limit`: a non-negative
bound keeps the first `limit` elements, a negative bound drops the last
`|limit|` (clamped at the empty list). -/
def pySliceTo (limit : Int) (l : List Json) : List Json :=
  if 0 ≤ limit then l.take limit.toNat
  else l.take (l.length - min l.length limit.natAbs)

/-- Python `"project" in v` when `v` is a JSON list: membership compares
the string against each element, and only string elements can be equal. -/
def listHasStr (k : String) (l : List Json) : Bool :=
  l.any fun j => match j with | .str s => s = k | _ => false

/-- `app/gtr_client/GtrClient.py` lines 199-208: extraction of the project
list from a `search_projects` response. On a dict response, a dict-valued
`project` field is coerced to a one-element list, a list-valued field is
kept, any other value (or an absent field) yields the empty list. On a
non-dict response, `"project" in response` may succeed trivially (empty
list) or raise `TypeError` when the subscript `response["project"]` would
run on a list or string containing the key. -/
def extractProjects (response : Json) : Except GtrError (List Json) :=
  match response with
  | .obj fs =>
    match fs.lookup "project" with
    | some (.obj o) => .ok [Json.obj o]
    | some (.arr l) => .ok l
    | some _ => .ok []
    | none => .ok []
  | .arr l => if listHasStr "project" l then .error .typeError else .ok []
  | .str s => if (s.splitOn "project").length > 1 then .error .typeError else .ok []
  | _ => .error .typeError

/-- `app/gtr_client/GtrClient.py` lines 167-211, `GtrClient.get_top_results`:
delegates to `search_projects` with `page_size = min(limit, 100)`, page 1,
`sort_field = "score"`, `sort_order = "D"`; coerces the `project` field of
the response to a list and truncates it to the first `limit` elements. -/
def get_top_results (query : String) (limit : Int)
    (search_fields : Option (List String))
    (fetch : List (String × ParamVal) → Except GtrError Json) : Except GtrError (List Json) :=
  let page_size := min limit 100
  exBind (search_projects query 1 page_size search_fields (some "score") "D" fetch) fun response =>
  exBind (extractProjects response) fun projects =>
  .ok (pySliceTo limit projects)

/-- A model upstream holding `avail` matching projects: it reads the
requested page size `s` from the parameters and answers with one page of
`min avail s` projects — an upstream that honours the page size and has
`avail` total avail. Used to state how many results `get_top_results`
can return. -/
def honestFetch (avail : Nat) (params : List (String × ParamVal)) :
    Except GtrError Json :=
  match params.lookup "s" with
  | some (.i s) => .ok (Json.obj [("project",
      Json.arr (List.replicate (min avail s.toNat) (Json.obj [("title", Json.str "t")])))])
  | _ => .error .transportError

end FullClient

section Helpers

/-- Inversion for `exBind`: a successful sequencing has a successful first
step whose value the second step accepts. -/
theorem exBind_ok {x : Except ε α} {f : α → Except ε β} {b : β}
    (h : exBind x f = .ok b) : ∃ a, x = .ok a ∧ f a = .ok b := by
  cases x with
  | error e => simp [exBind] at h
  | ok a => exact ⟨a, rfl, h⟩

/-- The fallible filter agrees with the total one whenever it succeeds. -/
theorem keepCheck_ok {p : Json} {c : Bool} (h : MiniClient.keepCheck p = .ok c) :
    MiniClient.keepElem p = c := by
  cases p <;>
    simp [MiniClient.keepCheck, MiniClient.keepElem, pyGet, jget, exBind] at h ⊢
  exact h

/-- A successful run of the list comprehension equals projecting the kept
elements, in their original order. -/
theorem parseElems_eq_mapRecords_filter {l : List Json} {ps : List Project}
    (h : MiniClient.parseElems l = .ok ps) :
    MiniClient.mapRecords (l.filter MiniClient.keepElem) = .ok ps := by
  induction l generalizing ps with
  | nil =>
    simp [MiniClient.parseElems] at h
    simp [MiniClient.mapRecords, h]
  | cons p rest ih =>
    rw [MiniClient.parseElems] at h
    cases hc : MiniClient.keepCheck p with
    | error e => rw [hc] at h; simp [exBind] at h
    | ok c =>
      rw [hc] at h
      have hk := keepCheck_ok hc
      cases c with
      | false =>
        simp [exBind] at h
        simp [List.filter, hk]
        exact ih h
      | true =>
        simp only [exBind] at h
        cases hr : MiniClient.mkProject p with
        | error e => rw [hr] at h; simp [exBind] at h
        | ok r =>
          rw [hr] at h
          cases hrest : MiniClient.parseElems rest with
          | error e => rw [hrest] at h; simp [exBind] at h
          | ok rs =>
            rw [hrest] at h
            simp [exBind] at h
            simp [List.filter, hk, MiniClient.mapRecords, hr, ih hrest, exBind, ← h]

/-- Every record of a successful run comes from an element that passed the
filter and was accepted by the record constructor. -/
theorem parseElems_mem {l : List Json} {ps : List Project} {r : Project}
    (h : MiniClient.parseElems l = .ok ps) (hr : r ∈ ps) :
    ∃ p ∈ l, MiniClient.keepElem p = true ∧ MiniClient.mkProject p = .ok r := by
  induction l generalizing ps with
  | nil =>
    simp [MiniClient.parseElems] at h
    subst h
    simp at hr
  | cons p rest ih =>
    rw [MiniClient.parseElems] at h
    cases hc : MiniClient.keepCheck p with
    | error e => rw [hc] at h; simp [exBind] at h
    | ok c =>
      rw [hc] at h
      have hk := keepCheck_ok hc
      cases c with
      | false =>
        simp [exBind] at h
        obtain ⟨q, hq, hkq, hmq⟩ := ih h hr
        exact ⟨q, List.mem_cons_of_mem _ hq, hkq, hmq⟩
      | true =>
        simp only [exBind, if_true] at h
        cases hp : MiniClient.mkProject p with
        | error e => rw [hp] at h; simp [exBind] at h
        | ok r0 =>
          rw [hp] at h
          cases hrest : MiniClient.parseElems rest with
          | error e => rw [hrest] at h; simp [exBind] at h
          | ok rs =>
            rw [hrest] at h
            simp [exBind] at h
            subst h
            rcases List.mem_cons.mp hr with h1 | h1
            · exact ⟨p, List.mem_cons_self _ _, hk, by rw [hp, h1]⟩
            · obtain ⟨q, hq, hkq, hmq⟩ := ih hrest h1
              exact ⟨q, List.mem_cons_of_mem _ hq, hkq, hmq⟩

/-- A record accepted by the constructor from an element that passed the
filter has non-empty `title` and `abstractText`. -/
theorem mkProject_kept_nonempty {p : Json} {r : Project}
    (hk : MiniClient.keepElem p = true) (h : MiniClient.mkProject p = .ok r) :
    r.title ≠ "" ∧ r.abstractText ≠ "" := by
  cases p with
  | obj fs =>
    simp only [MiniClient.keepElem, jget, Bool.and_eq_true] at hk
    obtain ⟨ht, ha⟩ := hk
    rw [MiniClient.mkProject] at h
    cases hlt : List.lookup "title" fs with
    | none => rw [hlt] at ht; simp [pyTruthyOpt] at ht
    | some tv =>
      cases hla : List.lookup "abstractText" fs with
      | none => rw [hla] at ha; simp [pyTruthyOpt] at ha
      | some av =>
        simp only [pyIndex, hlt, hla, exBind] at h
        cases tv with
        | str t =>
          cases av with
          | str a =>
            simp only [asStrField, exBind, pyGet] at h
            cases h1 : asOptStrField (List.lookup "techAbstractText" fs) with
            | error e => rw [h1] at h; simp [exBind] at h
            | ok tech =>
              cases h2 : asOptStrField (List.lookup "potentialImpact" fs) with
              | error e => rw [h1, h2] at h; simp [exBind] at h
              | ok imp =>
                rw [h1, h2] at h
                simp [exBind] at h
                rw [hlt] at ht
                rw [hla] at ha
                simp [pyTruthyOpt, pyTruthy] at ht ha
                rw [← h]
                exact ⟨ht, ha⟩
          | _ => simp_all [asStrField, exBind]
        | _ => simp_all [asStrField, exBind]
  | _ => simp_all [MiniClient.keepElem, jget, pyTruthyOpt]

end Helpers

/-- A successful run of `get_projects` on a body whose `project` field is
the list `l` is a successful run of the comprehension on `l`. -/
theorem get_projects_ok_arr {body : Json} {l : List Json} {ps : List Project}
    (hIdx : pyIndex body "project" = .ok (.arr l))
    (h : MiniClient.get_projects (.ok body) = .ok ps) :
    MiniClient.parseElems l = .ok ps := by
  simp [MiniClient.get_projects, hIdx, pyIter, exBind] at h
  exact h

/-- C2: for every upstream response body whose `project` field is a list,
every element missing `title` or `abstractText` fails the keep-filter (so
it is excluded from the result), and a successful `getValidatedProjects`
run returns exactly the kept elements projected into records in upstream
order (`mapRecords` over the order-preserving `filter`). -/
theorem get_projects_filters_missing_fields
    (body : Json) (l : List Json) (ps : List Project)
    (hIdx : pyIndex body "project" = .ok (.arr l))
    (hok : MiniClient.get_projects (.ok body) = .ok ps) :
    MiniClient.mapRecords (l.filter MiniClient.keepElem) = .ok ps ∧
    ∀ p ∈ l, (jget p "title" = none ∨ jget p "abstractText" = none) →
      MiniClient.keepElem p = false := by
  constructor
  · exact parseElems_eq_mapRecords_filter (get_projects_ok_arr hIdx hok)
  · intro p _ hmiss
    rcases hmiss with hm | hm <;> simp [MiniClient.keepElem, hm, pyTruthyOpt]

/-- The body of spec test 6, used as the witness input for C2: two
elements, the second missing `abstractText`; exactly the first survives. -/
theorem get_projects_filters_missing_fields_witness :
    MiniClient.mapRecords (List.filter MiniClient.keepElem
        [Json.obj [("title", Json.str "A"), ("abstractText", Json.str "B")],
         Json.obj [("title", Json.str "C")]])
      = .ok [{ title := "A", abstractText := "B",
               techAbstractText := none, potentialImpact := none }] ∧
    MiniClient.keepElem (Json.obj [("title", Json.str "C")]) = false := by
  have h := get_projects_filters_missing_fields
    (Json.obj [("project", Json.arr
        [Json.obj [("title", Json.str "A"), ("abstractText", Json.str "B")],
         Json.obj [("title", Json.str "C")]])])
    [Json.obj [("title", Json.str "A"), ("abstractText", Json.str "B")],
     Json.obj [("title", Json.str "C")]]
    [{ title := "A", abstractText := "B",
       techAbstractText := none, potentialImpact := none }]
    (by rfl) (by rfl)
  exact ⟨h.1, h.2 _ (by simp) (Or.inr (by rfl))⟩

/-- C10: every record returned by a successful `getValidatedProjects` run
has non-empty `title` and `abstractText`, and an element whose `title` or
`abstractText` is present but the empty string fails the keep-filter: the
truthiness test rejects empty strings, not only absent fields. -/
theorem get_projects_rejects_empty_strings
    (body : Json) (ps : List Project)
    (hok : MiniClient.get_projects (.ok body) = .ok ps) :
    (∀ r ∈ ps, r.title ≠ "" ∧ r.abstractText ≠ "") ∧
    (∀ p : Json,
      (jget p "title" = some (Json.str "") ∨ jget p "abstractText" = some (Json.str "")) →
      MiniClient.keepElem p = false) := by
  constructor
  · intro r hr
    rw [MiniClient.get_projects] at hok
    obtain ⟨b0, hb0, hok⟩ := exBind_ok hok
    cases hb0
    obtain ⟨pl, hidx, hok⟩ := exBind_ok hok
    obtain ⟨l, hit, hok⟩ := exBind_ok hok
    obtain ⟨p, _, hk, hm⟩ := parseElems_mem hok hr
    exact mkProject_kept_nonempty hk hm
  · intro p hmiss
    rcases hmiss with hm | hm <;>
      simp [MiniClient.keepElem, hm, pyTruthyOpt, pyTruthy]

/-- Witness for C10: on a body with an empty-titled element and a fully
populated one, the run keeps only the populated element, whose fields are
non-empty; the empty-titled element fails the filter. -/
theorem get_projects_rejects_empty_strings_witness :
    (({ title := "T", abstractText := "A",
        techAbstractText := none, potentialImpact := none } : Project).title ≠ "" ∧
     ({ title := "T", abstractText := "A",
        techAbstractText := none, potentialImpact := none } : Project).abstractText ≠ "") ∧
    MiniClient.keepElem
      (Json.obj [("title", Json.str ""), ("abstractText", Json.str "X")]) = false := by
  have h := get_projects_rejects_empty_strings
    (Json.obj [("project", Json.arr
        [Json.obj [("title", Json.str ""), ("abstractText", Json.str "X")],
         Json.obj [("title", Json.str "T"), ("abstractText", Json.str "A")]])])
    [{ title := "T", abstractText := "A",
       techAbstractText := none, potentialImpact := none }]
    (by rfl)
  exact ⟨h.1 _ (by simp), h.2 _ (Or.inl (by rfl))⟩

/-- C6: for every `page_size` outside [10,100], `search_projects` fails
with the `InvalidArgument` page-size error, for every choice of the other
arguments and for every network oracle — the oracle is never consulted, so
no network call is issued. -/
theorem search_projects_rejects_page_size
    (query : String) (page page_size : Int) (search_fields : Option (List String))
    (sort_field : Option String) (sort_order : String)
    (fetch : List (String × FullClient.ParamVal) → Except FullClient.GtrError Json)
    (h : page_size < 10 ∨ 100 < page_size) :
    FullClient.search_projects query page page_size search_fields sort_field sort_order fetch
      = .error (.invalidArgument FullClient.pageSizeMsg) := by
  have hb : (decide (page_size < 10) || decide (page_size > 100)) = true := by
    rcases h with h | h <;> simp [h]
  simp [FullClient.search_projects, hb]

/-- Witness for C6: `page_size = 5` is rejected. -/
theorem search_projects_rejects_page_size_witness :
    FullClient.search_projects "x" 1 5 none none "D" (fun _ => .ok Json.null)
      = .error (.invalidArgument FullClient.pageSizeMsg) :=
  search_projects_rejects_page_size "x" 1 5 none none "D" _ (Or.inl (by decide))

/-- C7: for every `sort_order` outside {A, D}, `search_projects` fails with
an `InvalidArgument` error for every choice of the other arguments — in
particular when `sort_field` is absent — and for every network oracle
(never consulted). When `page_size` is also invalid the page-size message
is raised instead, still an `InvalidArgument` failure before any network
call. -/
theorem search_projects_rejects_sort_order
    (query : String) (page page_size : Int) (search_fields : Option (List String))
    (sort_field : Option String) (sort_order : String)
    (fetch : List (String × FullClient.ParamVal) → Except FullClient.GtrError Json)
    (hA : sort_order ≠ "A") (hD : sort_order ≠ "D") :
    ∃ msg, FullClient.search_projects query page page_size search_fields sort_field
        sort_order fetch = .error (.invalidArgument msg) := by
  by_cases hps : page_size < 10 ∨ page_size > 100
  · have hb : (decide (page_size < 10) || decide (page_size > 100)) = true := by
      rcases hps with h | h <;> simp [h]
    exact ⟨FullClient.pageSizeMsg, by simp [FullClient.search_projects, hb]⟩
  · push_neg at hps
    have hb : (decide (page_size < 10) || decide (page_size > 100)) = false := by
      simp [not_lt.mpr hps.1, not_lt.mpr hps.2]
    exact ⟨FullClient.sortOrderMsg, by simp [FullClient.search_projects, hb, hA, hD]⟩

/-- Witness for C7: `sort_order = "X"` with no sort field is rejected. -/
theorem search_projects_rejects_sort_order_witness :
    ∃ msg, FullClient.search_projects "x" 1 10 none none "X" (fun _ => .ok Json.null)
      = .error (.invalidArgument msg) :=
  search_projects_rejects_sort_order "x" 1 10 none none "X" _ (by decide) (by decide)

/-- C9 counterexample: with `page_size = 5`, outside [10,100], both
`get_person_projects` and `get_organisation_projects` consult the network
oracle and return its body instead of failing with `InvalidArgument`. -/
theorem person_org_projects_no_validation_cex :
    FullClient.get_person_projects "p1" 1 5 (fun _ _ => .ok (Json.obj []))
      = .ok (Json.obj []) ∧
    FullClient.get_organisation_projects "o1" 1 5 (fun _ _ => .ok (Json.obj []))
      = .ok (Json.obj []) ∧
    (5 : Int) < 10 :=
  ⟨rfl, rfl, by decide⟩

/-- C9 amended: `get_person_projects` and `get_organisation_projects`
perform no validation at all; for every `page` and `page_size` each issues
the request on its URL with parameters `p` = page and `s` = page_size and
returns the outcome of the exchange unchanged. -/
theorem person_org_projects_passthrough (person_id organisation_id : String)
    (page page_size : Int)
    (fetch : String → List (String × FullClient.ParamVal) → Except FullClient.GtrError Json) :
    FullClient.get_person_projects person_id page page_size fetch
      = fetch (FullClient.BASE_URL ++ "/persons/" ++ person_id ++ "/projects")
          [("p", .i page), ("s", .i page_size)] ∧
    FullClient.get_organisation_projects organisation_id page page_size fetch
      = fetch (FullClient.BASE_URL ++ "/organisations/" ++ organisation_id ++ "/projects")
          [("p", .i page), ("s", .i page_size)] :=
  ⟨rfl, rfl⟩

/-- C1: whenever the Gateway Client `GtrClient.get_projects` succeeds with
a list of records, the tool adapter raises `AttributeError` instead of
returning that list (its `response.json()` call runs on a Python list);
a fatal client error does propagate to the host unchanged; and the client
does succeed on an ordinary body, so the failure is reachable. -/
theorem adapter_never_returns_records :
    (∀ (r : Except PyError Json) (ps : List Project),
      MiniClient.get_projects r = .ok ps →
      McpServer.get_projects r = .error .attributeError) ∧
    (∀ (r : Except PyError Json) (e : PyError),
      MiniClient.get_projects r = .error e →
      McpServer.get_projects r = .error e) ∧
    MiniClient.get_projects (.ok (Json.obj [("project", Json.arr
        [Json.obj [("title", Json.str "A"), ("abstractText", Json.str "B")]])]))
      = .ok [{ title := "A", abstractText := "B",
               techAbstractText := none, potentialImpact := none }] := by
  refine ⟨?_, ?_, by rfl⟩
  · intro r ps h
    simp [McpServer.get_projects, h, McpServer.listJsonCall]
  · intro r e h
    simp [McpServer.get_projects, h]

/-- Witness for C1: on the concrete body above, the adapter fails with
`AttributeError` while the client had succeeded. -/
theorem adapter_never_returns_records_witness :
    McpServer.get_projects (.ok (Json.obj [("project", Json.arr
        [Json.obj [("title", Json.str "A"), ("abstractText", Json.str "B")]])]))
      = .error .attributeError :=
  adapter_never_returns_records.1 _
    [{ title := "A", abstractText := "B",
       techAbstractText := none, potentialImpact := none }]
    adapter_never_returns_records.2.2

/-- The mandatory parameters sit at the head of the dict, before the
conditional segments: `s` always maps to the page size (and likewise `q`
and `p` to query and page). -/
theorem build_params_lookup_s (query : String) (page page_size : Int)
    (search_fields : Option (List String)) (sort_field : Option String)
    (sort_order : String) :
    (FullClient.build_params query page page_size search_fields sort_field
        sort_order).lookup "s" = some (.i page_size) := by
  simp [FullClient.build_params, List.lookup, List.cons_append]

/-- C8: for every valid search query (page size in [10,100], sort order in
the enum), `search_projects` sends exactly the parameter dict built by
`build_params`, and that dict always binds `q` to the query text, `p` to
the page and `s` to the page size; it binds `f` (to the supplied codes) iff
the caller supplied a non-empty list of search fields; and it binds `sf`
(to the supplied field) together with `so` (to the sort order) iff the
caller supplied a non-empty sort field. -/
theorem search_projects_params_shape
    (query : String) (page page_size : Int) (search_fields : Option (List String))
    (sort_field : Option String) (sort_order : String)
    (fetch : List (String × FullClient.ParamVal) → Except FullClient.GtrError Json)
    (h10 : 10 ≤ page_size) (h100 : page_size ≤ 100)
    (hso : sort_order = "A" ∨ sort_order = "D") :
    let ps := FullClient.build_params query page page_size search_fields sort_field sort_order
    FullClient.search_projects query page page_size search_fields sort_field sort_order fetch
        = fetch ps ∧
    ps.lookup "q" = some (.s query) ∧
    ps.lookup "p" = some (.i page) ∧
    ps.lookup "s" = some (.i page_size) ∧
    ((∃ fs, search_fields = some fs ∧ fs ≠ []) ↔ (ps.lookup "f").isSome) ∧
    (∀ fs, search_fields = some fs → fs ≠ [] → ps.lookup "f" = some (.strList fs)) ∧
    ((∃ sf, sort_field = some sf ∧ sf ≠ "") ↔ (ps.lookup "sf").isSome) ∧
    ((ps.lookup "sf").isSome ↔ (ps.lookup "so").isSome) ∧
    (∀ sf, sort_field = some sf → sf ≠ "" →
      ps.lookup "sf" = some (.s sf) ∧ ps.lookup "so" = some (.s sort_order)) := by
  intro ps
  have hb : (decide (page_size < 10) || decide (page_size > 100)) = false := by
    simp [not_lt.mpr h10, not_lt.mpr h100]
  refine ⟨?_, ?_, ?_, ?_, ?_, ?_, ?_, ?_, ?_⟩
  · rcases hso with h | h <;> subst h <;> simp [FullClient.search_projects, hb]
  · simp [ps, FullClient.build_params, List.lookup, List.cons_append]
  · simp [ps, FullClient.build_params, List.lookup, List.cons_append]
  · simp [ps, FullClient.build_params, List.lookup, List.cons_append]
  all_goals
    rcases search_fields with _ | fs <;>
    rcases sort_field with _ | sf <;>
    simp only [ps, FullClient.build_params] <;>
    (try split_ifs) <;>
    simp_all [List.lookup, List.cons_append]

/-- Witness for C8: a fully supplied valid query binds all six parameters. -/
theorem search_projects_params_shape_witness :
    (FullClient.build_params "x" 2 10 (some ["pro.t"]) (some "score") "D").lookup "q"
        = some (.s "x") ∧
    (FullClient.build_params "x" 2 10 (some ["pro.t"]) (some "score") "D").lookup "f"
        = some (.strList ["pro.t"]) ∧
    (FullClient.build_params "x" 2 10 (some ["pro.t"]) (some "score") "D").lookup "sf"
        = some (.s "score") ∧
    (FullClient.build_params "x" 2 10 (some ["pro.t"]) (some "score") "D").lookup "so"
        = some (.s "D") := by
  have h := search_projects_params_shape "x" 2 10 (some ["pro.t"]) (some "score") "D"
    (fun _ => .ok Json.null) (by decide) (by decide) (Or.inr rfl)
  exact ⟨h.2.1, h.2.2.2.2.2.1 _ rfl (by decide),
         (h.2.2.2.2.2.2.2.2 _ rfl (by decide)).1,
         (h.2.2.2.2.2.2.2.2 _ rfl (by decide)).2⟩

/-- C5: for every valid limit (at least 10, so the delegated search
accepts the derived page size), a response body whose `project` field is a
single JSON object yields the one-element sequence holding that object,
and a body without a `project` field yields the empty sequence. -/
theorem get_top_results_coercion
    (query : String) (limit : Int) (search_fields : Option (List String))
    (hlim : 10 ≤ limit) :
    (∀ o rest : List (String × Json),
      FullClient.get_top_results query limit search_fields
          (fun _ => .ok (Json.obj (("project", Json.obj o) :: rest)))
        = .ok [Json.obj o]) ∧
    (∀ fs : List (String × Json), fs.lookup "project" = none →
      FullClient.get_top_results query limit search_fields
          (fun _ => .ok (Json.obj fs))
        = .ok []) := by
  have hb : (decide (min limit 100 < 10) || decide (min limit 100 > 100)) = false := by
    have h1 : ¬ min limit 100 < 10 := by omega
    have h2 : ¬ min limit 100 > 100 := by omega
    simp [h1, h2]
  have htoNat : (1 : Nat) ≤ limit.toNat := by omega
  have hnot10 : ¬ limit < 10 := by omega
  have h0 : (0 : Int) ≤ limit := by omega
  constructor
  · intro o rest
    have ht : List.take limit.toNat [Json.obj o] = [Json.obj o] :=
      List.take_of_length_le (by simpa using htoNat)
    simp [FullClient.get_top_results, FullClient.search_projects, hb, hnot10, exBind,
          FullClient.extractProjects, List.lookup, FullClient.pySliceTo, h0, ht]
  · intro fs hfs
    simp [FullClient.get_top_results, FullClient.search_projects, hb, hnot10, exBind,
          FullClient.extractProjects, hfs, FullClient.pySliceTo, h0]

/-- Witness for C5: at `limit = 10`, a dict-valued `project` is wrapped in
a singleton and a body without `project` gives the empty sequence. -/
theorem get_top_results_coercion_witness :
    FullClient.get_top_results "x" 10 none
        (fun _ => .ok (Json.obj [("project", Json.obj [("title", Json.str "t")])]))
      = .ok [Json.obj [("title", Json.str "t")]] ∧
    FullClient.get_top_results "x" 10 none (fun _ => .ok (Json.obj []))
      = .ok [] :=
  ⟨(get_top_results_coercion "x" 10 none (by decide)).1 [("title", Json.str "t")] [],
   (get_top_results_coercion "x" 10 none (by decide)).2 [] rfl⟩

/-- C4 counterexample: with the positive limit 5 and an upstream holding
five matching projects, `get_top_results` does not return a sequence at
all — the derived
page size `min(5,100) = 5` fails the [10,100] validation — and with limit
150 and an upstream holding 150 matching projects honouring the requested
page size, only 100 results come back, not 150. -/
theorem get_top_results_limit_cex :
    FullClient.get_top_results "x" 5 none (FullClient.honestFetch 5)
      = .error (.invalidArgument FullClient.pageSizeMsg) ∧
    (FullClient.get_top_results "x" 150 none (FullClient.honestFetch 150)).map
        List.length = .ok 100 := by
  exact ⟨rfl, rfl⟩

/-- C4 amended: `get_top_results(query, limit)` fails with the
`InvalidArgument` page-size error for every positive limit below 10; for
every limit ≥ 10 it returns a sequence of length at most `limit` for every
upstream, and against an upstream with `avail` matching projects honouring
the requested page size the length is exactly `min(avail, limit, 100)` —
so it equals `limit` whenever `limit ≤ 100` and the upstream has at least
`limit` matching projects. -/
theorem get_top_results_amended
    (query : String) (search_fields : Option (List String)) (limit : Int) (avail : Nat) :
    (limit < 10 →
      ∀ fetch, FullClient.get_top_results query limit search_fields fetch
        = .error (.invalidArgument FullClient.pageSizeMsg)) ∧
    (10 ≤ limit →
      ∀ fetch l, FullClient.get_top_results query limit search_fields fetch = .ok l →
        l.length ≤ limit.toNat) ∧
    (10 ≤ limit →
      (FullClient.get_top_results query limit search_fields
          (FullClient.honestFetch avail)).map List.length
        = .ok (min avail (min limit.toNat 100))) := by
  refine ⟨?_, ?_, ?_⟩
  · intro hlim fetch
    have hb : (decide (min limit 100 < 10) || decide (min limit 100 > 100)) = true := by
      have h1 : min limit 100 < 10 := by omega
      simp [h1]
    simp [FullClient.get_top_results, FullClient.search_projects, hb, hlim, exBind]
  · intro hlim fetch l hok
    rw [FullClient.get_top_results] at hok
    obtain ⟨response, _, hok⟩ := exBind_ok hok
    obtain ⟨projects, _, hok⟩ := exBind_ok hok
    have h0 : (0 : Int) ≤ limit := by omega
    simp [FullClient.pySliceTo, h0] at hok
    rw [← hok]
    simp [List.length_take]
  · intro hlim
    have hb : (decide (min limit 100 < 10) || decide (min limit 100 > 100)) = false := by
      have h1 : ¬ min limit 100 < 10 := by omega
      have h2 : ¬ min limit 100 > 100 := by omega
      simp [h1, h2]
    have hnot10 : ¬ limit < 10 := by omega
    have h0 : (0 : Int) ≤ limit := by omega
    simp [FullClient.get_top_results, FullClient.search_projects, hb, hnot10, exBind,
          FullClient.honestFetch, build_params_lookup_s, FullClient.extractProjects,
          List.lookup, FullClient.pySliceTo, h0, List.length_take]
    simp [Except.map, List.length_replicate]
    omega

/-- Witness for C4 amended: limit 5 is rejected; at limit 10 against an
upstream with 3 matching projects the run succeeds with 3 ≤ 10 results,
exactly `min 3 (min 10 100)` of them. -/
theorem get_top_results_amended_witness :
    FullClient.get_top_results "x" 5 none (FullClient.honestFetch 0)
      = .error (.invalidArgument FullClient.pageSizeMsg) ∧
    (List.replicate 3 (Json.obj [("title", Json.str "t")])).length ≤ (10 : Int).toNat ∧
    (FullClient.get_top_results "x" 10 none (FullClient.honestFetch 3)).map List.length
      = .ok (min 3 (min (10 : Int).toNat 100)) :=
  ⟨(get_top_results_amended "x" none 5 0).1 (by decide) _,
   (get_top_results_amended "x" none 10 3).2.1 (by decide) (FullClient.honestFetch 3)
     (List.replicate 3 (Json.obj [("title", Json.str "t")])) (by rfl),
   (get_top_results_amended "x" none 10 3).2.2 (by decide)⟩

/-- C3 counterexample: for the query `ashley`, the URL built by
`get_projects` carries `q=` followed by the repr of the text — the text
wrapped in single quotes — which differs from the text itself, so the `q`
parameter is not exactly the caller's query text. -/
theorem request_query_param_not_exact :
    (MiniClient.request "ashley").url
      = MiniClient.GTR_API_PROJECTS ++ "/?q=" ++
        (String.singleton MiniClient.sqc ++ "ashley" ++ String.singleton MiniClient.sqc) ∧
    String.singleton MiniClient.sqc ++ "ashley" ++ String.singleton MiniClient.sqc
      ≠ "ashley" ∧
    (MiniClient.request "ashley").url
      ≠ MiniClient.GTR_API_PROJECTS ++ "/?q=" ++ "ashley" :=
  ⟨rfl, by decide, by decide⟩

/-- Plain characters are copied verbatim by the repr body. -/
theorem pyReprBody_plain (cs : List Char) (h : ∀ c ∈ cs, plainChar c) :
    MiniClient.pyReprBody MiniClient.sqc cs = String.mk cs := by
  induction cs with
  | nil => rfl
  | cons c cs ih =>
    obtain ⟨h1, h2, h3, h4⟩ := h c (List.mem_cons_self c cs)
    have hne9 : c ≠ Char.ofNat 9 := by
      intro hc; rw [hc] at h3; revert h3; decide
    have hne10 : c ≠ Char.ofNat 10 := by
      intro hc; rw [hc] at h3; revert h3; decide
    have hne13 : c ≠ Char.ofNat 13 := by
      intro hc; rw [hc] at h3; revert h3; decide
    have hctrl : (decide (c.toNat < 32) || decide (c.toNat = 127)) = false := by
      simp [not_lt.mpr h3, h4]
    rw [MiniClient.pyReprBody, MiniClient.pyReprChar,
        if_neg h1, if_neg h2, if_neg hne9, if_neg hne10, if_neg hne13]
    rw [ih fun c hc => h c (List.mem_cons_of_mem _ hc)]
    simp only [hctrl, Bool.false_eq_true, if_false]
    rfl

/-- C3 amended: for every query text, the request built by the minimal
client carries the fixed `User-Agent` and `Accept: application/json`
headers, the timeout bound 5, and a URL whose only query parameter is `q`;
but the value of `q` is the Python repr of the query text — for plain text,
the text wrapped in single quotes — not the text itself. -/
theorem request_shape_amended (q : String) (hplain : ∀ c ∈ q.data, plainChar c) :
    MiniClient.request q =
      { url := MiniClient.GTR_API_PROJECTS ++ "/?q=" ++
          (String.singleton MiniClient.sqc ++ q ++ String.singleton MiniClient.sqc)
        headers := [("User-Agent", MiniClient.USER_AGENT), ("Accept", "application/json")]
        timeout := 5 } := by
  have hnotin : MiniClient.sqc ∉ q.data := fun hm => ((hplain _ hm).2.1 rfl).elim
  have hcontains : q.data.contains MiniClient.sqc = false := by
    simpa using hnotin
  have hbody := pyReprBody_plain q.data hplain
  simp only [MiniClient.request, MiniClient.pyReprStr, hcontains, Bool.false_and,
    Bool.false_eq_true, if_false, hbody]

/-- Witness for C3 amended: the request for `ashley`, with the quoted
parameter value, the two fixed headers and the 5-second timeout. -/
theorem request_shape_amended_witness :
    MiniClient.request "ashley" =
      { url := MiniClient.GTR_API_PROJECTS ++ "/?q=" ++
          (String.singleton MiniClient.sqc ++ "ashley" ++ String.singleton MiniClient.sqc)
        headers := [("User-Agent", MiniClient.USER_AGENT), ("Accept", "application/json")]
        timeout := 5 } :=
  request_shape_amended "ashley" (by decide)
